import Mathlib

/-!
Shallow embedding of the ThriftBot pricing engine (`src/thriftbot/pricing.py`)
over exact rational arithmetic. Python floats are modelled by `ℚ`; Python's
`round(x, n)` (round-half-to-even) is modelled by `round2` / `round1`.
Randomness (`random.uniform`, `random.choice`) is modelled by explicit
parameters, and the comparable store by an explicit list of stored records.
-/

namespace ThriftBot

/-- Round a rational to the nearest integer, ties to even, modelling
Python's built-in `round` applied to the exact value. -/
def roundHalfEven (x : ℚ) : ℤ :=
  if x - ⌊x⌋ < 1/2 then ⌊x⌋
  else if 1/2 < x - ⌊x⌋ then ⌊x⌋ + 1
  else if ⌊x⌋ % 2 = 0 then ⌊x⌋ else ⌊x⌋ + 1

/-- Python `round(x, 2)`. -/
def round2 (x : ℚ) : ℚ := (roundHalfEven (x * 100) : ℚ) / 100

/-- Python `round(x, 1)`. -/
def round1 (x : ℚ) : ℚ := (roundHalfEven (x * 10) : ℚ) / 10

/-- The slice of `db.InventoryItem` that `pricing.py` reads: `cost` is
declared `Decimal(decimal_places=2)` in `db.py`, `listed_price` is optional. -/
structure InventoryItem where
  sku : String
  brand : String
  name : String
  category : String
  condition : String
  cost : ℚ
  listed_price : Option ℚ
deriving DecidableEq

/-- The slice of `db.MarketComparable` that `pricing.py` reads and writes. -/
structure MarketComparable where
  search_term : String
  category : String
  brand : String
  condition : String
  title : String
  price : ℚ
  shipping_cost : ℚ
  total_price : ℚ
  platform : String
  listing_status : String
deriving DecidableEq

/-- The `price_range` dictionary built by `get_market_comparables`. -/
structure PriceRange where
  min : ℚ
  max : ℚ
  average : ℚ
  median : ℚ
deriving DecidableEq

/-- Boolean test that the first character list begins the second, the helper
for the substring test below. -/
def beginsWith : List Char → List Char → Bool
  | [], _ => true
  | _ :: _, [] => false
  | a :: as, b :: bs => a == b && beginsWith as bs

/-- Boolean test that `needle` occurs contiguously inside the list. -/
def hasSub (needle : List Char) : List Char → Bool
  | [] => beginsWith needle []
  | h :: t => beginsWith needle (h :: t) || hasSub needle t

/-- Python `needle in hay` on strings, and SQLModel `column.contains(needle)`. -/
def strContains (hay needle : String) : Bool := hasSub needle.data hay.data

/-- Python `min(list)`; the emptiness guard lives at the call sites. -/
def listMin : List ℚ → ℚ
  | [] => 0
  | x :: xs => xs.foldl min x

/-- Python `max(list)`; the emptiness guard lives at the call sites. -/
def listMax : List ℚ → ℚ
  | [] => 0
  | x :: xs => xs.foldl max x

/-- Python `statistics.mean`. -/
def listMean (l : List ℚ) : ℚ := l.sum / l.length

/-- Insertion into an ascending list, the sorting step of `statistics.median`. -/
def insertSorted (x : ℚ) : List ℚ → List ℚ
  | [] => [x]
  | y :: ys => if x ≤ y then x :: y :: ys else y :: insertSorted x ys

/-- Ascending sort by repeated insertion, modelling Python `sorted`. -/
def sortAsc : List ℚ → List ℚ
  | [] => []
  | x :: xs => insertSorted x (sortAsc xs)

/-- Python `statistics.median`: the middle element of the sorted list, or the
mean of the two middle elements when the length is even. -/
def listMedian (l : List ℚ) : ℚ :=
  if (sortAsc l).length % 2 = 1 then (sortAsc l).getD ((sortAsc l).length / 2) 0
  else ((sortAsc l).getD ((sortAsc l).length / 2 - 1) 0
        + (sortAsc l).getD ((sortAsc l).length / 2) 0) / 2

/-- The statistics block of `get_market_comparables` (pricing.py lines 72-82):
min, max, 2-decimal mean and 2-decimal median of the prices, all zero when the
list is empty. -/
def price_range_of (prices : List ℚ) : PriceRange :=
  { min := if prices = [] then 0 else listMin prices
    max := if prices = [] then 0 else listMax prices
    average := if prices = [] then 0 else round2 (listMean prices)
    median := if prices = [] then 0 else round2 (listMedian prices) }

/-- The three search terms of `get_market_comparables` (lines 53-57). -/
def search_terms (item : InventoryItem) : List String :=
  [item.brand ++ " " ++ item.name, item.brand, item.name]

/-- The query loop of `get_market_comparables` (lines 59-66): for each term,
the stored comparables whose `search_term` contains it, up to `limit` per
term, accumulated without deduplication. -/
def lookup_comparables (item : InventoryItem) (db : List MarketComparable) (limit : ℕ) :
    List MarketComparable :=
  (search_terms item).foldl
    (fun acc t => acc ++ (db.filter fun c => strContains c.search_term t).take limit) []

/-- The ordered category table of `generate_sample_comparables` (lines 308-314). -/
def category_ranges : List (String × (ℚ × ℚ)) :=
  [("clothing", (4, 8)), ("electronics", (2, 5)), ("home & garden", (3, 6)),
   ("sports & outdoors", (7/2, 7)), ("collectibles", (5, 12))]

/-- First table entry matching the category key by the two-sided substring test
`key in category_key or category_key in key` (lines 319-322). -/
def findRange (catKey : String) : List (String × (ℚ × ℚ)) → Option (ℚ × ℚ)
  | [] => none
  | (k, v) :: rest =>
      if strContains catKey k || strContains k catKey then some v else findRange catKey rest

/-- Python `item.category.lower() if item.category else "clothing"`. -/
def category_key (category : String) : String :=
  if category = "" then "clothing" else category.toLower

/-- The category bucket of `generate_sample_comparables` (lines 316-325), the
"clothing" bucket by default. -/
def getCategoryRange (category : String) : ℚ × ℚ :=
  (findRange (category_key category) category_ranges).getD (4, 8)

/-- One synthetic comparable of `generate_sample_comparables` (lines 333-351):
`mult` stands for the one `uniform(low, high)` draw shared by all seven
records, `var` for this record's `uniform(0.8, 1.4)` draw, `cond` and
`status` for the two `random.choice` draws; the price and total price are
`Decimal(str(round(price, 2)))`, shipping cost `0.00`. The decorative title
suffix draw is folded into the constant title. -/
def sample_comparable (item : InventoryItem) (mult var : ℚ) (cond status : String) :
    MarketComparable :=
  { search_term := item.brand ++ " " ++ item.name
    category := item.category
    brand := item.brand
    condition := cond
    title := item.brand ++ " " ++ item.name
    price := round2 (item.cost * mult * var)
    shipping_cost := 0
    total_price := round2 (item.cost * mult * var)
    platform := "ebay"
    listing_status := status }

/-- `generate_sample_comparables` (lines 302-353): exactly 7 synthetic
comparables around `base_price = cost * mult`. -/
def generate_sample_comparables (item : InventoryItem) (mult : ℚ) (vars : Fin 7 → ℚ)
    (conds stats : Fin 7 → String) : List MarketComparable :=
  (List.finRange 7).map fun i => sample_comparable item mult (vars i) (conds i) (stats i)

/-- The comparable set `get_market_comparables` aggregates (lines 59-70): the
query results, or the synthetic sample when the query finds nothing. -/
def comparables_used (item : InventoryItem) (db : List MarketComparable) (limit : ℕ)
    (mult : ℚ) (vars : Fin 7 → ℚ) (conds stats : Fin 7 → String) : List MarketComparable :=
  if lookup_comparables item db limit = []
  then generate_sample_comparables item mult vars conds stats
  else lookup_comparables item db limit

/-- The aggregate part of the dictionary `get_market_comparables` returns
(lines 75-94); the `recent_sales` display rows are omitted. -/
structure MarketData where
  total_comparables : ℕ
  price_range : PriceRange
deriving DecidableEq

/-- `get_market_comparables` (lines 48-94). -/
def get_market_comparables (item : InventoryItem) (db : List MarketComparable)
    (limit : ℕ) (mult : ℚ) (vars : Fin 7 → ℚ) (conds stats : Fin 7 → String) : MarketData :=
  { total_comparables := (comparables_used item db limit mult vars conds stats).length
    price_range :=
      price_range_of ((comparables_used item db limit mult vars conds stats).map
        fun c => c.total_price) }

/-- The condition multiplier table of `calculate_pricing_suggestions`
(lines 144-153), with the `dict.get` default `0.7`. -/
def condition_multiplier (condition : String) : ℚ :=
  if condition = "New" then 1
  else if condition = "Excellent" then 9/10
  else if condition = "Very Good" then 4/5
  else if condition = "Good" then 7/10
  else if condition = "Fair" then 3/5
  else if condition = "Poor" then 1/2
  else 7/10

/-- The fallback multiplier table of `calculate_pricing_suggestions`
(lines 119-125), as (conservative, competitive, aggressive) triples. -/
def category_multipliers : List (String × (ℚ × ℚ × ℚ)) :=
  [("clothing", (4, 5, 6)), ("electronics", (2, 3, 4)), ("home & garden", (3, 4, 5)),
   ("sports & outdoors", (7/2, 9/2, 6)), ("collectibles", (4, 6, 8))]

/-- First fallback table entry matching the category key (lines 127-133). -/
def findMultipliers (catKey : String) : List (String × (ℚ × ℚ × ℚ)) → Option (ℚ × ℚ × ℚ)
  | [] => none
  | (k, v) :: rest =>
      if strContains catKey k || strContains k catKey then some v else findMultipliers catKey rest

/-- The fallback multipliers for a category, "clothing" by default (lines 135-136). -/
def getCategoryMultipliers (category : String) : ℚ × ℚ × ℚ :=
  (findMultipliers (category_key category) category_multipliers).getD (4, 5, 6)

/-- The three strategy prices of `calculate_pricing_suggestions` before the
condition adjustment (lines 106-141). -/
def base_prices (cost : ℚ) (category : String) (mkt : PriceRange) : ℚ × ℚ × ℚ :=
  if 0 < mkt.average then
    (max (cost * 2) (mkt.average * (8/10)),
     if cost * (3/2) < mkt.median then mkt.median else cost * 2,
     min (mkt.average * (12/10)) (mkt.max * (9/10)))
  else
    (cost * (getCategoryMultipliers category).1,
     cost * (getCategoryMultipliers category).2.1,
     cost * (getCategoryMultipliers category).2.2)

/-- The prices after the condition adjustment (lines 156-158) and before the
margin floor: the pre-floor suggested prices. -/
def cond_adjusted_prices (item : InventoryItem) (mkt : PriceRange) : ℚ × ℚ × ℚ :=
  ((base_prices item.cost item.category mkt).1 * condition_multiplier item.condition,
   (base_prices item.cost item.category mkt).2.1 * condition_multiplier item.condition,
   (base_prices item.cost item.category mkt).2.2 * condition_multiplier item.condition)

/-- The `suggested_prices` dictionary (lines 167-171). -/
structure SuggestedPrices where
  conservative : ℚ
  competitive : ℚ
  aggressive : ℚ
deriving DecidableEq

/-- The `market_position` dictionary (lines 172-176). -/
structure MarketPosition where
  below_market : ℚ
  at_market : ℚ
  above_market : ℚ
deriving DecidableEq

/-- The dictionary `calculate_pricing_suggestions` returns; the human-readable
`condition_adjustment` string is omitted. -/
structure PricingAnalysis where
  suggested_prices : SuggestedPrices
  market_position : MarketPosition
deriving DecidableEq

/-- `calculate_pricing_suggestions` (lines 97-178), taking the `price_range`
part of the market data dictionary: condition-adjust the three base prices,
floor each at `cost * 1.5`, round to 2 decimals. -/
def calculate_pricing_suggestions (item : InventoryItem) (mkt : PriceRange) : PricingAnalysis :=
  { suggested_prices :=
      { conservative := round2 (max (cond_adjusted_prices item mkt).1 (item.cost * (3/2)))
        competitive := round2 (max (cond_adjusted_prices item mkt).2.1 (item.cost * (3/2)))
        aggressive := round2 (max (cond_adjusted_prices item mkt).2.2 (item.cost * (3/2))) }
    market_position :=
      { below_market := if 0 < mkt.average then round2 (mkt.average * (8/10)) else 0
        at_market := if 0 < mkt.average then round2 mkt.average else 0
        above_market := if 0 < mkt.average then round2 (mkt.average * (12/10)) else 0 } }

/-- The `fees` dictionary of a profit scenario (lines 202-207). -/
structure FeeBreakdown where
  listing_fee : ℚ
  final_value_fee : ℚ
  paypal_fee : ℚ
  total_fees : ℚ
deriving DecidableEq

/-- The `profit` dictionary of a profit scenario (lines 208-212). -/
structure ProfitBreakdown where
  gross_profit : ℚ
  net_profit : ℚ
  roi_percentage : ℚ
deriving DecidableEq

/-- One entry of the list `calculate_profit_scenarios` returns. -/
structure ProfitScenario where
  strategy : String
  price : ℚ
  fees : FeeBreakdown
  profit : ProfitBreakdown
deriving DecidableEq

/-- The unrounded `total_fees` of the loop body (lines 189-192):
`listing_fee + final_value_fee + paypal_fee` with `listing_fee = 0`. -/
def total_fees_of (price : ℚ) : ℚ := 0 + price * (1/10) + (price * (29/1000) + 3/10)

/-- The unrounded `net_profit` of the loop body (lines 195-196). -/
def net_profit_of (cost price : ℚ) : ℚ := (price - cost) - total_fees_of price

/-- The loop body of `calculate_profit_scenarios` (lines 187-213): fees, gross
and net profit, and the zero-cost-guarded ROI, rounded for output. -/
def profit_scenario (cost price : ℚ) (strategy : String) : ProfitScenario :=
  { strategy := strategy
    price := price
    fees :=
      { listing_fee := round2 0
        final_value_fee := round2 (price * (1/10))
        paypal_fee := round2 (price * (29/1000) + 3/10)
        total_fees := round2 (total_fees_of price) }
    profit :=
      { gross_profit := round2 (price - cost)
        net_profit := round2 (net_profit_of cost price)
        roi_percentage :=
          round1 (if 0 < cost then net_profit_of cost price / cost * 100 else 0) } }

/-- `calculate_profit_scenarios` (lines 181-215) over the three suggested
price points, in the dictionary's insertion order. -/
def calculate_profit_scenarios (item : InventoryItem) (sp : SuggestedPrices) :
    List ProfitScenario :=
  [profit_scenario item.cost sp.conservative "Conservative",
   profit_scenario item.cost sp.competitive "Competitive",
   profit_scenario item.cost sp.aggressive "Aggressive"]

/-- The dictionary `calculate_break_even_price` returns (lines 493-504),
with the `fee_breakdown` sub-dictionary flattened. -/
structure BreakEvenResult where
  item_cost : ℚ
  break_even_price : ℚ
  break_even_with_margin : ℚ
  fixed_fees : ℚ
  variable_rate_percentage : ℚ
  estimated_fees_at_break_even : ℚ
deriving DecidableEq

/-- `calculate_break_even_price` (lines 472-504) at the level of the item's
cost (the SKU lookup precedes this computation): fixed fees `0.30`, variable
rate `0.10 + 0.029`, break-even `(cost + 0.30) / (1 - 0.129)`, margin 5%. -/
def calculate_break_even_price (cost : ℚ) : BreakEvenResult :=
  { item_cost := cost
    break_even_price := round2 ((cost + 3/10) / (1 - (1/10 + 29/1000)))
    break_even_with_margin := round2 ((cost + 3/10) / (1 - (1/10 + 29/1000)) * (105/100))
    fixed_fees := 3/10
    variable_rate_percentage := round1 ((1/10 + 29/1000) * 100)
    estimated_fees_at_break_even :=
      round2 ((cost + 3/10) / (1 - (1/10 + 29/1000)) * (1/10 + 29/1000) + 3/10) }

/-- One suggestion of `suggest_price_adjustments`; the free-text `reason`
field is omitted. -/
structure PriceSuggestion where
  stype : String
  current_price : ℚ
  suggested_price : ℚ
  urgency : String
deriving DecidableEq

/-- The time-based branch of `suggest_price_adjustments` (lines 428-448), an
`if days_listed > 30 ... elif days_listed > 60` chain evaluated exactly as
written. -/
def time_suggestions (days_listed : ℤ) (current_price : ℚ) : List PriceSuggestion :=
  if 30 < days_listed then
    [{ stype := "price_reduction", current_price := current_price,
       suggested_price := round2 (current_price * (9/10)), urgency := "medium" }]
  else if 60 < days_listed then
    [{ stype := "aggressive_reduction", current_price := current_price,
       suggested_price := round2 (current_price * (8/10)), urgency := "high" }]
  else []

/-- The market-comparison branch of `suggest_price_adjustments` (lines 450-461). -/
def market_suggestions (current_price market_avg : ℚ) : List PriceSuggestion :=
  if 0 < market_avg ∧ market_avg * (12/10) < current_price then
    [{ stype := "market_adjustment", current_price := current_price,
       suggested_price := round2 market_avg, urgency := "medium" }]
  else []

/-- The two shapes `suggest_price_adjustments` returns: the bare informational
message, or the full report with suggestions and market context. -/
inductive AdjustResult where
  | message (text : String)
  | report (current_price : ℚ) (days_listed : ℤ) (suggestions : List PriceSuggestion)
      (market_context : PriceRange)
deriving DecidableEq

/-- `suggest_price_adjustments` (lines 412-469): `none` models a failed SKU
lookup (`ValueError`); a missing or zero (Python-falsy) listed price
short-circuits to the bare message before any market lookup; otherwise
`days_listed` is the hardcoded placeholder `14` and the market lookup runs
with `limit = 10`. -/
def suggest_price_adjustments (found : Option InventoryItem) (db : List MarketComparable)
    (mult : ℚ) (vars : Fin 7 → ℚ) (conds stats : Fin 7 → String) :
    Except String AdjustResult :=
  match found with
  | none => .error "Item not found"
  | some item =>
    match item.listed_price with
    | none => .ok (.message "Item not yet listed - no adjustments needed")
    | some lp =>
      if lp = 0 then .ok (.message "Item not yet listed - no adjustments needed")
      else
        .ok (.report lp 14
          (time_suggestions 14 lp ++
            market_suggestions lp
              (get_market_comparables item db 10 mult vars conds stats).price_range.average)
          (get_market_comparables item db 10 mult vars conds stats).price_range)

/-- A concrete item for concrete evaluations: cost $1.03, condition Poor. -/
def itemPoor103 : InventoryItem :=
  { sku := "S1", brand := "B", name := "N", category := "clothing",
    condition := "Poor", cost := 103/100, listed_price := none }

/-- A concrete item with zero cost, the case the spec's error taxonomy calls
out (`DivisionByZeroRisk`). -/
def itemZeroCost : InventoryItem :=
  { sku := "S0", brand := "B", name := "N", category := "clothing",
    condition := "Good", cost := 0, listed_price := none }

/-- A concrete item with cost $5.00. -/
def itemClothing5 : InventoryItem :=
  { sku := "S5", brand := "B", name := "N", category := "clothing",
    condition := "Good", cost := 5, listed_price := none }

/-- A concrete market price range with positive average. -/
def mkt1 : PriceRange := { min := 1, max := 2, average := 1, median := 1 }

/-- A concrete triple of suggested prices. -/
def spW : SuggestedPrices := { conservative := 20, competitive := 15, aggressive := 25 }


theorem roundHalfEven_ge (y : ℚ) : y - 1/2 ≤ (roundHalfEven y : ℚ) := by
  have h1 : ((⌊y⌋ : ℤ) : ℚ) ≤ y := Int.floor_le y
  have h2 : y < (⌊y⌋ : ℤ) + 1 := Int.lt_floor_add_one y
  unfold roundHalfEven
  split
  · linarith
  · split
    · push_cast; linarith
    · split <;> push_cast <;> linarith

theorem round2_ge (x : ℚ) : x - 1/200 ≤ round2 x := by
  have h := roundHalfEven_ge (x * 100)
  unfold round2
  linarith

theorem roundHalfEven_eq_down (y : ℚ) (n : ℤ) (h1 : (n : ℚ) ≤ y) (h2 : y - n < 1/2) :
    roundHalfEven y = n := by
  have hf : ⌊y⌋ = n := Int.floor_eq_iff.mpr ⟨h1, by linarith⟩
  unfold roundHalfEven
  rw [hf, if_pos h2]

theorem roundHalfEven_eq_up (y : ℚ) (n : ℤ) (h1 : 1/2 < y - n) (h2 : y < n + 1) :
    roundHalfEven y = n + 1 := by
  have hn : (n : ℚ) ≤ y := by linarith
  have hf : ⌊y⌋ = n := Int.floor_eq_iff.mpr ⟨hn, by linarith⟩
  unfold roundHalfEven
  rw [hf, if_neg (by linarith), if_pos h1]

theorem roundHalfEven_eq_half_even (y : ℚ) (n : ℤ) (hh : y - n = 1/2) (he : n % 2 = 0) :
    roundHalfEven y = n := by
  have hf : ⌊y⌋ = n := Int.floor_eq_iff.mpr ⟨by linarith, by linarith⟩
  unfold roundHalfEven
  rw [hf, if_neg (by linarith), if_neg (by linarith), if_pos he]

theorem round2_eq_down (x : ℚ) (n : ℤ) (h1 : (n : ℚ) ≤ x * 100) (h2 : x * 100 - n < 1/2) :
    round2 x = (n : ℚ) / 100 := by
  unfold round2
  rw [roundHalfEven_eq_down (x * 100) n h1 h2]

theorem round2_eq_up (x : ℚ) (n : ℤ) (h1 : 1/2 < x * 100 - n) (h2 : x * 100 < n + 1) :
    round2 x = ((n : ℚ) + 1) / 100 := by
  unfold round2
  rw [roundHalfEven_eq_up (x * 100) n h1 h2]
  push_cast
  ring

theorem round2_eq_half_even (x : ℚ) (n : ℤ) (hh : x * 100 - n = 1/2) (he : n % 2 = 0) :
    round2 x = (n : ℚ) / 100 := by
  unfold round2
  rw [roundHalfEven_eq_half_even (x * 100) n hh he]

theorem round2_zero : round2 0 = 0 := by
  unfold round2
  rw [roundHalfEven_eq_down (0 * 100) 0 (by norm_num) (by norm_num)]
  norm_num

theorem round1_zero : round1 0 = 0 := by
  unfold round1
  rw [roundHalfEven_eq_down (0 * 10) 0 (by norm_num) (by norm_num)]
  norm_num

theorem getCategoryRange_low_bounds (c : String) :
    2 ≤ (getCategoryRange c).1 ∧ (getCategoryRange c).1 ≤ 5 := by
  unfold getCategoryRange
  simp only [category_ranges, findRange]
  split_ifs <;> norm_num

theorem condition_multiplier_eval :
    condition_multiplier "New" = 1 ∧ condition_multiplier "Poor" = 1/2 ∧
    condition_multiplier "Good" = 7/10 ∧ condition_multiplier "New with Tags" = 7/10 ∧
    condition_multiplier "New without Tags" = 7/10 := by
  refine ⟨?_, ?_, ?_, ?_, ?_⟩ <;> simp [condition_multiplier]

/-- Claim C1 (amended): for every item with cost `c > 0`, each of the three
suggested prices is at least `1.5 * c` before the final 2-decimal rounding,
hence at least `1.5 * c - 0.005` after it (the rounding can shave up to half
a cent off the floor, see the counterexample). -/
theorem C1_margin_floor_amended (item : InventoryItem) (mkt : PriceRange)
    (h : 0 < item.cost) :
    (3/2) * item.cost - 1/200
        ≤ (calculate_pricing_suggestions item mkt).suggested_prices.conservative ∧
    (3/2) * item.cost - 1/200
        ≤ (calculate_pricing_suggestions item mkt).suggested_prices.competitive ∧
    (3/2) * item.cost - 1/200
        ≤ (calculate_pricing_suggestions item mkt).suggested_prices.aggressive := by
  have key : ∀ p : ℚ, (3/2) * item.cost - 1/200 ≤ round2 (max p (item.cost * (3/2))) := by
    intro p
    have h1 := round2_ge (max p (item.cost * (3/2)))
    have h2 : item.cost * (3/2) ≤ max p (item.cost * (3/2)) := le_max_right _ _
    linarith
  exact ⟨key _, key _, key _⟩

/-- Claim C1, counterexample: for the $1.03 Poor-condition item and market
average 1, all three floored prices are exactly `1.545` before rounding, and
the 2-decimal rounding (ties to even — the same value the float computation
`round(1.03 * 1.5, 2)` produces) returns `1.54 < 1.545 = 1.5 * cost`, so the
claimed post-rounding floor `1.5 * c` fails. -/
theorem C1_margin_floor_counterexample :
    0 < itemPoor103.cost ∧
    (calculate_pricing_suggestions itemPoor103 mkt1).suggested_prices.conservative
      < (3/2) * itemPoor103.cost := by
  constructor
  · norm_num [itemPoor103]
  · have hP : condition_multiplier "Poor" = 1/2 := condition_multiplier_eval.2.1
    have harg : max ((base_prices itemPoor103.cost itemPoor103.category mkt1).1
        * condition_multiplier itemPoor103.condition) (itemPoor103.cost * (3/2))
        = 309/200 := by
      rw [show itemPoor103.condition = "Poor" from rfl, hP]
      norm_num [base_prices, itemPoor103, mkt1, max_def]
    show round2 (max ((base_prices itemPoor103.cost itemPoor103.category mkt1).1
        * condition_multiplier itemPoor103.condition) (itemPoor103.cost * (3/2)))
      < (3/2) * itemPoor103.cost
    rw [harg, round2_eq_half_even (309/200) 154 (by norm_num) (by decide)]
    norm_num [itemPoor103]

/-- Claim C1, witness: the amended floor at the concrete $1.03 item. -/
theorem C1_margin_floor_witness :
    (3/2) * itemPoor103.cost - 1/200
      ≤ (calculate_pricing_suggestions itemPoor103 mkt1).suggested_prices.conservative :=
  (C1_margin_floor_amended itemPoor103 mkt1 (by norm_num [itemPoor103])).1

/-- Claim C2: every scenario returned by `calculate_profit_scenarios` reports
`listing_fee = 0`, `final_value_fee = price * 0.10`, `paypal_fee =
price * 0.029 + 0.30`, `total_fees` their sum, `gross_profit = price - cost`
and `net_profit = price - cost - (price*0.10 + price*0.029 + 0.30)`, each
rounded to 2 decimals, and the ROI percentage rounded to 1 decimal. -/
theorem C2_fee_model (item : InventoryItem) (sp : SuggestedPrices) (s : ProfitScenario)
    (hs : s ∈ calculate_profit_scenarios item sp) :
    s.fees.listing_fee = 0 ∧
    s.fees.final_value_fee = round2 (s.price * (1/10)) ∧
    s.fees.paypal_fee = round2 (s.price * (29/1000) + 3/10) ∧
    s.fees.total_fees = round2 (s.price * (1/10) + (s.price * (29/1000) + 3/10)) ∧
    s.profit.gross_profit = round2 (s.price - item.cost) ∧
    s.profit.net_profit
      = round2 (s.price - item.cost - (s.price * (1/10) + (s.price * (29/1000) + 3/10))) ∧
    s.profit.roi_percentage
      = round1 (if 0 < item.cost
          then (s.price - item.cost - (s.price * (1/10) + (s.price * (29/1000) + 3/10)))
                / item.cost * 100
          else 0) := by
  have base : ∀ price strategy,
      (profit_scenario item.cost price strategy).fees.listing_fee = 0 ∧
      (profit_scenario item.cost price strategy).fees.final_value_fee
        = round2 (price * (1/10)) ∧
      (profit_scenario item.cost price strategy).fees.paypal_fee
        = round2 (price * (29/1000) + 3/10) ∧
      (profit_scenario item.cost price strategy).fees.total_fees
        = round2 (price * (1/10) + (price * (29/1000) + 3/10)) ∧
      (profit_scenario item.cost price strategy).profit.gross_profit
        = round2 (price - item.cost) ∧
      (profit_scenario item.cost price strategy).profit.net_profit
        = round2 (price - item.cost - (price * (1/10) + (price * (29/1000) + 3/10))) ∧
      (profit_scenario item.cost price strategy).profit.roi_percentage
        = round1 (if 0 < item.cost
            then (price - item.cost - (price * (1/10) + (price * (29/1000) + 3/10)))
                  / item.cost * 100
            else 0) := by
    intro price strategy
    have hnet : net_profit_of item.cost price
        = price - item.cost - (price * (1/10) + (price * (29/1000) + 3/10)) := by
      unfold net_profit_of total_fees_of; ring
    have htot : total_fees_of price = price * (1/10) + (price * (29/1000) + 3/10) := by
      unfold total_fees_of; ring
    refine ⟨round2_zero, rfl, rfl, ?_, rfl, ?_, ?_⟩
    · show round2 (total_fees_of price) = _
      rw [htot]
    · show round2 (net_profit_of item.cost price) = _
      rw [hnet]
    · show round1 (if 0 < item.cost then net_profit_of item.cost price / item.cost * 100
          else 0) = _
      rw [hnet]
  simp only [calculate_profit_scenarios, List.mem_cons, List.not_mem_nil, or_false] at hs
  rcases hs with rfl | rfl | rfl <;> exact base _ _

/-- Claim C2, witness: the fee model at cost $5 and price $20. -/
theorem C2_fee_model_witness :
    (profit_scenario itemClothing5.cost spW.conservative "Conservative").fees.listing_fee
        = 0 ∧
    (profit_scenario itemClothing5.cost spW.conservative "Conservative").fees.final_value_fee
      = round2 ((profit_scenario itemClothing5.cost spW.conservative "Conservative").price
          * (1/10)) ∧
    (profit_scenario itemClothing5.cost spW.conservative "Conservative").fees.paypal_fee
      = round2 ((profit_scenario itemClothing5.cost spW.conservative "Conservative").price
          * (29/1000) + 3/10) ∧
    (profit_scenario itemClothing5.cost spW.conservative "Conservative").fees.total_fees
      = round2 ((profit_scenario itemClothing5.cost spW.conservative "Conservative").price
          * (1/10)
          + ((profit_scenario itemClothing5.cost spW.conservative "Conservative").price
              * (29/1000) + 3/10)) ∧
    (profit_scenario itemClothing5.cost spW.conservative "Conservative").profit.gross_profit
      = round2 ((profit_scenario itemClothing5.cost spW.conservative "Conservative").price
          - itemClothing5.cost) ∧
    (profit_scenario itemClothing5.cost spW.conservative "Conservative").profit.net_profit
      = round2 ((profit_scenario itemClothing5.cost spW.conservative "Conservative").price
          - itemClothing5.cost
          - ((profit_scenario itemClothing5.cost spW.conservative "Conservative").price
              * (1/10)
              + ((profit_scenario itemClothing5.cost spW.conservative "Conservative").price
                  * (29/1000) + 3/10))) ∧
    (profit_scenario itemClothing5.cost spW.conservative "Conservative").profit.roi_percentage
      = round1 (if 0 < itemClothing5.cost
          then ((profit_scenario itemClothing5.cost spW.conservative "Conservative").price
              - itemClothing5.cost
              - ((profit_scenario itemClothing5.cost spW.conservative "Conservative").price
                  * (1/10)
                  + ((profit_scenario itemClothing5.cost spW.conservative
                      "Conservative").price * (29/1000) + 3/10)))
                / itemClothing5.cost * 100
          else 0) :=
  C2_fee_model itemClothing5 spW _ (by simp [calculate_profit_scenarios])

/-- Claim C3: at `days_listed = 61 > 60` the code emits exactly the 10%
medium-urgency reduction, not the claimed 20% high-urgency one: the
`if days_listed > 30` branch captures every value above 60, so the
`elif days_listed > 60` branch is unreachable. -/
theorem C3_stale_listing_eval :
    (60 : ℤ) < 61 ∧
    time_suggestions 61 100 =
      [{ stype := "price_reduction", current_price := 100,
         suggested_price := 90, urgency := "medium" }] := by
  have h90 : round2 ((100 : ℚ) * (9/10)) = 90 := by
    rw [show (100 : ℚ) * (9/10) = 90 by norm_num,
      round2_eq_down 90 9000 (by norm_num) (by norm_num)]
    norm_num
  refine ⟨by norm_num, ?_⟩
  unfold time_suggestions
  rw [if_pos (by norm_num : (30 : ℤ) < 61), h90]

/-- Claim C4 (amended): the aggregated comparable set is never empty and the
synthetic generator supplies exactly 7 comparables — both unconditionally,
for every item and store — and each synthetic comparable has
`total_price > 0` provided the item's cost is at least one cent (`mult` and
each `var` carry the lower bounds of their `uniform` ranges; the zero-cost
counterexample shows the positivity clause needs the cost proviso). -/
theorem C4_synthetic_fallback_amended (item : InventoryItem) (db : List MarketComparable)
    (limit : ℕ) (mult : ℚ) (vars : Fin 7 → ℚ) (conds stats : Fin 7 → String) :
    1 ≤ (get_market_comparables item db limit mult vars conds stats).total_comparables ∧
    (generate_sample_comparables item mult vars conds stats).length = 7 ∧
    ((getCategoryRange item.category).1 ≤ mult → (∀ i, 4/5 ≤ vars i) →
      1/100 ≤ item.cost →
      ∀ c ∈ generate_sample_comparables item mult vars conds stats, 0 < c.total_price) := by
  have len7 : (generate_sample_comparables item mult vars conds stats).length = 7 := by
    simp [generate_sample_comparables]
  refine ⟨?_, len7, ?_⟩
  · show 1 ≤ (comparables_used item db limit mult vars conds stats).length
    unfold comparables_used
    split
    · rw [len7]; norm_num
    · rename_i hne
      exact Nat.one_le_iff_ne_zero.2 (by simpa [List.length_eq_zero] using hne)
  · intro hm hv hc c hcm
    have h2 : (2 : ℚ) ≤ mult := le_trans (getCategoryRange_low_bounds item.category).1 hm
    simp only [generate_sample_comparables, List.mem_map] at hcm
    obtain ⟨i, -, rfl⟩ := hcm
    show 0 < round2 (item.cost * mult * vars i)
    have hvi := hv i
    have hcpos : (0 : ℚ) ≤ item.cost := by linarith
    have p1 : (1/100 : ℚ) * 2 ≤ item.cost * mult :=
      mul_le_mul hc h2 (by norm_num) hcpos
    have p2 : ((1/100 : ℚ) * 2) * (4/5) ≤ (item.cost * mult) * vars i :=
      mul_le_mul p1 hvi (by norm_num) (by linarith)
    have p3 := round2_ge (item.cost * mult * vars i)
    have hmul : item.cost * mult * vars i = (item.cost * mult) * vars i := by ring
    rw [hmul] at p3 ⊢
    linarith

/-- Claim C4, counterexample: for a zero-cost item (the data model allows
`cost = 0` — the very case the ROI guard exists for) the store lookup finds
nothing and every synthetic comparable has `total_price = 0`, not `> 0`. -/
theorem C4_total_price_counterexample :
    lookup_comparables itemZeroCost [] 20 = [] ∧
    ¬ ∀ c ∈ generate_sample_comparables itemZeroCost 4 (fun _ => 1) (fun _ => "New")
        (fun _ => "sold"), 0 < c.total_price := by
  constructor
  · rfl
  · intro h
    have hm : sample_comparable itemZeroCost 4 1 "New" "sold"
        ∈ generate_sample_comparables itemZeroCost 4 (fun _ => 1) (fun _ => "New")
          (fun _ => "sold") := by
      simp only [generate_sample_comparables, List.mem_map]
      exact ⟨0, List.mem_finRange 0, trivial⟩
    have h0 := h _ hm
    have hz : (sample_comparable itemZeroCost 4 1 "New" "sold").total_price = 0 := by
      show round2 (itemZeroCost.cost * 4 * 1) = 0
      rw [show itemZeroCost.cost * 4 * 1 = 0 by norm_num [itemZeroCost]]
      exact round2_zero
    rw [hz] at h0
    exact lt_irrefl 0 h0

/-- Claim C4, witness: with cost $5, category clothing, `mult = 5` and unit
variations, the synthetic sample has exactly 7 comparables. -/
theorem C4_synthetic_fallback_witness :
    (generate_sample_comparables itemClothing5 5 (fun _ => 1) (fun _ => "New")
      (fun _ => "sold")).length = 7 :=
  (C4_synthetic_fallback_amended itemClothing5 [] 20 5 (fun _ => 1) (fun _ => "New")
    (fun _ => "sold")).2.1

/-- Claim C5: `calculate_break_even_price` returns
`round2 ((cost + 0.30) / (1 - 0.129))` and `round2` of that unrounded
break-even times `1.05`; at cost $10.00 these are $11.83 and $12.42. -/
theorem C5_break_even_price :
    (∀ cost : ℚ,
      (calculate_break_even_price cost).break_even_price
        = round2 ((cost + 3/10) / (1 - 129/1000)) ∧
      (calculate_break_even_price cost).break_even_with_margin
        = round2 ((cost + 3/10) / (1 - 129/1000) * (105/100))) ∧
    (calculate_break_even_price 10).break_even_price = 1183/100 ∧
    (calculate_break_even_price 10).break_even_with_margin = 1242/100 := by
  refine ⟨fun cost => ⟨?_, ?_⟩, ?_, ?_⟩
  · show round2 ((cost + 3/10) / (1 - (1/10 + 29/1000)))
        = round2 ((cost + 3/10) / (1 - 129/1000))
    norm_num
  · show round2 ((cost + 3/10) / (1 - (1/10 + 29/1000)) * (105/100))
        = round2 ((cost + 3/10) / (1 - 129/1000) * (105/100))
    norm_num
  · show round2 ((10 + 3/10) / (1 - (1/10 + 29/1000))) = 1183/100
    rw [show ((10 : ℚ) + 3/10) / (1 - (1/10 + 29/1000)) = 10300/871 by norm_num,
      round2_eq_up (10300/871) 1182 (by norm_num) (by norm_num)]
    norm_num
  · show round2 ((10 + 3/10) / (1 - (1/10 + 29/1000)) * (105/100)) = 1242/100
    rw [show ((10 : ℚ) + 3/10) / (1 - (1/10 + 29/1000)) * (105/100) = 10815/871 by norm_num,
      round2_eq_up (10815/871) 1241 (by norm_num) (by norm_num)]
    norm_num

/-- Claim C6: whenever the item's cost is zero, every scenario's ROI
percentage is `0` (the guard short-circuits, and the embedding is total, so
no exception is possible). -/
theorem C6_roi_zero_when_cost_zero (item : InventoryItem) (sp : SuggestedPrices)
    (h : item.cost = 0) (s : ProfitScenario)
    (hs : s ∈ calculate_profit_scenarios item sp) :
    s.profit.roi_percentage = 0 := by
  have base : ∀ price strategy,
      (profit_scenario item.cost price strategy).profit.roi_percentage = 0 := by
    intro price strategy
    show round1 (if 0 < item.cost then net_profit_of item.cost price / item.cost * 100
        else 0) = 0
    rw [h, if_neg (lt_irrefl 0)]
    exact round1_zero
  simp only [calculate_profit_scenarios, List.mem_cons, List.not_mem_nil, or_false] at hs
  rcases hs with rfl | rfl | rfl <;> exact base _ _

/-- Claim C6, witness: the zero-cost item at price $20. -/
theorem C6_roi_zero_witness :
    (profit_scenario itemZeroCost.cost spW.conservative "Conservative").profit.roi_percentage
      = 0 :=
  C6_roi_zero_when_cost_zero itemZeroCost spW rfl _ (by simp [calculate_profit_scenarios])

/-- Claim C7: the statistics aggregation over total prices returns all zeroes
on the empty list, and `{min 10, max 30, average 20, median 20}` on
`[10, 20, 30]`. -/
theorem C7_statistics_aggregator :
    price_range_of [] = { min := 0, max := 0, average := 0, median := 0 } ∧
    price_range_of [10, 20, 30] = { min := 10, max := 30, average := 20, median := 20 } := by
  have h20 : round2 ((20 : ℚ)) = 20 := by
    rw [show (20 : ℚ) = ((2000 : ℤ) : ℚ) / 100 by norm_num] 
    rw [round2_eq_down (((2000 : ℤ) : ℚ) / 100) 2000 (by norm_num) (by norm_num)]
  constructor
  · rfl
  · norm_num [price_range_of, listMin, listMax, listMean, listMedian, sortAsc,
      insertSorted, min_def, max_def, List.getD, h20, List.cons_ne_nil]

/-- Claim C8: for items identical except in condition and identical market
data, the pre-floor suggested prices of a Poor item are exactly half those of
a New one, componentwise. -/
theorem C8_condition_scaling (item : InventoryItem) (mkt : PriceRange) :
    (cond_adjusted_prices { item with condition := "Poor" } mkt).1
      = (1/2) * (cond_adjusted_prices { item with condition := "New" } mkt).1 ∧
    (cond_adjusted_prices { item with condition := "Poor" } mkt).2.1
      = (1/2) * (cond_adjusted_prices { item with condition := "New" } mkt).2.1 ∧
    (cond_adjusted_prices { item with condition := "Poor" } mkt).2.2
      = (1/2) * (cond_adjusted_prices { item with condition := "New" } mkt).2.2 := by
  have hP : condition_multiplier "Poor" = 1/2 := condition_multiplier_eval.2.1
  have hN : condition_multiplier "New" = 1 := condition_multiplier_eval.1
  refine ⟨?_, ?_, ?_⟩
  · show (base_prices item.cost item.category mkt).1 * condition_multiplier "Poor"
        = (1/2) * ((base_prices item.cost item.category mkt).1 * condition_multiplier "New")
    rw [hP, hN]; ring
  · show (base_prices item.cost item.category mkt).2.1 * condition_multiplier "Poor"
        = (1/2) * ((base_prices item.cost item.category mkt).2.1 * condition_multiplier "New")
    rw [hP, hN]; ring
  · show (base_prices item.cost item.category mkt).2.2 * condition_multiplier "Poor"
        = (1/2) * ((base_prices item.cost item.category mkt).2.2 * condition_multiplier "New")
    rw [hP, hN]; ring

/-- Claim C9: the conditions "New with Tags" and "New without Tags" (valid
condition values in the CLI data model) are absent from the multiplier table,
so they get the default `0.7` rather than the `1.0` of "New", and the
pre-floor prices equal those of an otherwise-identical "Good" item. -/
theorem C9_new_with_tags_default (item : InventoryItem) (mkt : PriceRange) :
    condition_multiplier "New with Tags" = 7/10 ∧
    condition_multiplier "New without Tags" = 7/10 ∧
    condition_multiplier "New" = 1 ∧
    cond_adjusted_prices { item with condition := "New with Tags" } mkt
      = cond_adjusted_prices { item with condition := "Good" } mkt ∧
    cond_adjusted_prices { item with condition := "New without Tags" } mkt
      = cond_adjusted_prices { item with condition := "Good" } mkt := by
  have hG : condition_multiplier "Good" = 7/10 := condition_multiplier_eval.2.2.1
  have hT : condition_multiplier "New with Tags" = 7/10 := condition_multiplier_eval.2.2.2.1
  have hO : condition_multiplier "New without Tags" = 7/10 :=
    condition_multiplier_eval.2.2.2.2
  refine ⟨hT, hO, condition_multiplier_eval.1, ?_, ?_⟩
  · show ((base_prices item.cost item.category mkt).1 * condition_multiplier "New with Tags",
        (base_prices item.cost item.category mkt).2.1 * condition_multiplier "New with Tags",
        (base_prices item.cost item.category mkt).2.2 * condition_multiplier "New with Tags")
      = ((base_prices item.cost item.category mkt).1 * condition_multiplier "Good",
         (base_prices item.cost item.category mkt).2.1 * condition_multiplier "Good",
         (base_prices item.cost item.category mkt).2.2 * condition_multiplier "Good")
    rw [hT, hG]
  · show ((base_prices item.cost item.category mkt).1
          * condition_multiplier "New without Tags",
        (base_prices item.cost item.category mkt).2.1
          * condition_multiplier "New without Tags",
        (base_prices item.cost item.category mkt).2.2
          * condition_multiplier "New without Tags")
      = ((base_prices item.cost item.category mkt).1 * condition_multiplier "Good",
         (base_prices item.cost item.category mkt).2.1 * condition_multiplier "Good",
         (base_prices item.cost item.category mkt).2.2 * condition_multiplier "Good")
    rw [hO, hG]

/-- Claim C10: for an item that exists but has no listed price, the function
returns only the informational message — no suggestions list, no market
context — and the result does not depend on the comparable store or the
random draws, so no market lookup is observable. -/
theorem C10_unlisted_item (item : InventoryItem) (db : List MarketComparable)
    (mult : ℚ) (vars : Fin 7 → ℚ) (conds stats : Fin 7 → String)
    (h : item.listed_price = none) :
    suggest_price_adjustments (some item) db mult vars conds stats
      = Except.ok (AdjustResult.message "Item not yet listed - no adjustments needed") := by
  simp only [suggest_price_adjustments]
  rw [h]

/-- Claim C10, witness: the unlisted $1.03 item with an empty store. -/
theorem C10_unlisted_item_witness :
    suggest_price_adjustments (some itemPoor103) [] 4 (fun _ => 1) (fun _ => "New")
      (fun _ => "sold")
      = Except.ok (AdjustResult.message "Item not yet listed - no adjustments needed") :=
  C10_unlisted_item itemPoor103 [] 4 (fun _ => 1) (fun _ => "New") (fun _ => "sold") rfl

end ThriftBot
